import Mathlib

/-!
Verification development for the order-fulfillment core of the
Hansitha storefront repository.

The server-side webhook handler (server/routes/orderRoutes.js, POST /webhook)
is embedded as a pure function from an environment (outcomes of the external
calls: HMAC computation, cart-clear update, Shiprocket shipment creation and
courier assignment, socket availability), an order store, the request
signature header and the request body, to an HTTP status, the updated store
and a trace of issued effects.

The client-side tracking poller (src/pages/TrackingOrders.tsx) is embedded
as a discrete transition system: one tick of the 5-second interval is one
event, and teardown of the component is another event.
-/

namespace Hansitha

/-- Payment status of an order: "pending", "paid" or "failed". -/
inductive PaymentStatus where
  | pending
  | paid
  | failed
deriving DecidableEq, Repr

/-- Fulfillment lifecycle status of an order. -/
inductive OrderStatus where
  | Created
  | Placed
  | Processing
  | Shipping
  | Delivered
deriving DecidableEq, Repr

/-- Position of a fulfillment status in the forward lifecycle order. -/
def statusRank : OrderStatus → Nat
  | OrderStatus.Created => 0
  | OrderStatus.Placed => 1
  | OrderStatus.Processing => 2
  | OrderStatus.Shipping => 3
  | OrderStatus.Delivered => 4

/-- Shipment details persisted on an order after the Shiprocket calls
succeed (orderRoutes.js lines 94-100). -/
structure ShipmentDetails where
  shiprocketOrderId : String
  shipmentId : String
  status : String
  awbCode : String
  courierName : String
deriving DecidableEq, Repr

/-- An order document, restricted to the fields the webhook handler reads
or writes. -/
structure Order where
  id : String
  user : Option String
  paymentStatus : PaymentStatus
  status : OrderStatus
  adminStatus : Option String
  shipmentDetails : Option ShipmentDetails
deriving DecidableEq, Repr

/-- Response body of createShiprocketOrder, as read by the handler. -/
structure ShiprocketOrderResp where
  order_id : String
  shipment_id : String
deriving DecidableEq, Repr

/-- The data field of the assignCourierAndGetAwb response, as read by the
handler. -/
structure AwbData where
  status : String
  awb_code : String
  courier_name : String
deriving DecidableEq, Repr

/-- Environment of one webhook delivery: the outcomes of every external
operation the handler performs. The hmac field is the result of computing
the expected HMAC-SHA256 hex digest over the given serialized body with the
shared secret (Except.error models a thrown exception during computation);
cartClear is the outcome of the User.findByIdAndUpdate cart reset;
createShipment and assignCourier are the outcomes of the two Shiprocket
calls; ioPresent tells whether the socket server handle is configured. -/
structure Env where
  hmac : String → Except Unit String
  cartClear : Except Unit Unit
  createShipment : Except Unit ShiprocketOrderResp
  assignCourier : String → Except Unit AwbData
  ioPresent : Bool

/-- The entity.notes object of a payment_link payload. -/
structure NotesPayload where
  internal_order_id : Option String
deriving DecidableEq, Repr

/-- An inbound webhook request body. The payload field is the
payload.payment_link.entity.notes object when that path exists (when it is
absent, the JavaScript property access throws and the outer catch answers
500); raw is the JSON serialization of the body that the HMAC is computed
over. -/
structure WebhookBody where
  event : String
  payload : Option NotesPayload
  raw : String
deriving DecidableEq, Repr

/-- One externally visible effect issued by the handler, in issue order. -/
inductive Effect where
  | saveOrder (o : Order)
  | clearCart (userId : String)
  | createShipmentCall (orderId : String)
  | assignCourierCall (shipmentId : String)
  | emitNewOrder (o : Order)
deriving DecidableEq, Repr

/-- True for the cart-clear effect. -/
def Effect.isClearCart : Effect → Bool
  | Effect.clearCart _ => true
  | _ => false

/-- True for the shipment-creation call effect. -/
def Effect.isCreateShipment : Effect → Bool
  | Effect.createShipmentCall _ => true
  | _ => false

/-- True for the newOrder broadcast effect. -/
def Effect.isEmitNewOrder : Effect → Bool
  | Effect.emitNewOrder _ => true
  | _ => false

/-- True for every effect that is a call to an external service: the
cart-clear update and the two courier-gateway calls. -/
def Effect.isExternal : Effect → Bool
  | Effect.clearCart _ => true
  | Effect.createShipmentCall _ => true
  | Effect.assignCourierCall _ => true
  | _ => false

/-- Outcome of one webhook delivery: HTTP status code, resulting order
store, and the trace of issued effects. -/
structure WebhookResult where
  status : Nat
  store : List Order
  effects : List Effect
deriving DecidableEq, Repr

/-- Order.findById over the store. -/
def findOrder (store : List Order) (oid : String) : Option Order :=
  store.find? (fun o => o.id = oid)

/-- order.save: persist the document back into the store under its id. -/
def saveOrder (store : List Order) (o : Order) : List Order :=
  store.map (fun x => if x.id = o.id then o else x)

/-- The order after the payment persist of orderRoutes.js lines 76-78. -/
def paidOrder (order : Order) : Order :=
  { order with paymentStatus := PaymentStatus.paid, status := OrderStatus.Placed }

/-- The order after the catch branch of the Shiprocket block flags it for
the admin (orderRoutes.js line 109). -/
def shippingErrorOrder (order : Order) : Order :=
  { order with adminStatus := some "shipping_error" }

/-- The order after shipmentDetails is populated from the two Shiprocket
responses (orderRoutes.js lines 94-100). -/
def shippedOrder (order : Order) (sr : ShiprocketOrderResp) (awb : AwbData) : Order :=
  let sd : ShipmentDetails :=
    ⟨sr.order_id, sr.shipment_id, awb.status, awb.awb_code, awb.courier_name⟩
  { order with shipmentDetails := some sd }

/-- The Shiprocket try/catch block of the handler (orderRoutes.js lines
86-111) followed by the common 200 response (line 113): attempt shipment
creation, then courier assignment; on success persist shipmentDetails and
broadcast newOrder when the socket handle exists; on failure of either call
set adminStatus to "shipping_error" and persist. Takes the store and order
as they stand after the payment persist, and the effects issued so far. -/
def shipmentPhase (env : Env) (store : List Order) (order : Order)
    (effs : List Effect) : WebhookResult :=
  match env.createShipment with
  | Except.error _ =>
      { status := 200, store := saveOrder store (shippingErrorOrder order),
        effects := effs ++ [Effect.createShipmentCall order.id,
          Effect.saveOrder (shippingErrorOrder order)] }
  | Except.ok sr =>
      match env.assignCourier sr.shipment_id with
      | Except.error _ =>
          { status := 200, store := saveOrder store (shippingErrorOrder order),
            effects := effs ++ [Effect.createShipmentCall order.id,
              Effect.assignCourierCall sr.shipment_id,
              Effect.saveOrder (shippingErrorOrder order)] }
      | Except.ok awb =>
          let base := effs ++ [Effect.createShipmentCall order.id,
              Effect.assignCourierCall sr.shipment_id,
              Effect.saveOrder (shippedOrder order sr awb)]
          { status := 200, store := saveOrder store (shippedOrder order sr awb),
            effects := if env.ioPresent then
                base ++ [Effect.emitNewOrder (shippedOrder order sr awb)] else base }

/-- The processing of a found, not-yet-paid order (orderRoutes.js lines
76-113): persist paymentStatus = paid and status = Placed, clear the owning
user cart when a user reference exists (a rejection there is caught by the
outer catch, which answers 500 and skips the rest), then run the Shiprocket
phase. -/
def processPaidOrder (env : Env) (store : List Order) (order : Order) : WebhookResult :=
  let store1 := saveOrder store (paidOrder order)
  match (paidOrder order).user with
  | some u =>
      match env.cartClear with
      | Except.error _ =>
          { status := 500, store := store1,
            effects := [Effect.saveOrder (paidOrder order), Effect.clearCart u] }
      | Except.ok _ =>
          shipmentPhase env store1 (paidOrder order)
            [Effect.saveOrder (paidOrder order), Effect.clearCart u]
  | none => shipmentPhase env store1 (paidOrder order) [Effect.saveOrder (paidOrder order)]

/-- The POST /webhook handler of orderRoutes.js (lines 32-122): verify the
HMAC signature (mismatch answers 400, a computation exception answers 500);
for the payment_link.paid event, read the internal order id from the notes
(a missing payload path throws into the outer catch, answering 500; a
falsy id answers 400), load the order (absent answers 404), short-circuit
with 200 when it is already paid, and otherwise process it; any other
event is acknowledged with 200 and no action. -/
def webhookHandler (env : Env) (store : List Order) (signature : Option String)
    (body : WebhookBody) : WebhookResult :=
  match env.hmac body.raw with
  | Except.error _ => { status := 500, store := store, effects := [] }
  | Except.ok expectedSignature =>
      if signature ≠ some expectedSignature then
        { status := 400, store := store, effects := [] }
      else if body.event = "payment_link.paid" then
        match body.payload with
        | none => { status := 500, store := store, effects := [] }
        | some notes =>
            match notes.internal_order_id with
            | none => { status := 400, store := store, effects := [] }
            | some oid =>
                if oid = "" then { status := 400, store := store, effects := [] }
                else
                  match findOrder store oid with
                  | none => { status := 404, store := store, effects := [] }
                  | some order =>
                      if order.paymentStatus = PaymentStatus.paid then
                        { status := 200, store := store, effects := [] }
                      else processPaidOrder env store order
      else { status := 200, store := store, effects := [] }

/-- An order as seen by the tracking page: only the AWB code matters for
its control flow (order.shipmentDetails?.awbCode). -/
structure ClientOrder where
  id : String
  awbCode : Option String
deriving DecidableEq, Repr

/-- The status state of the TrackingOrders component. -/
inductive PStatus where
  | loading
  | polling
  | success
  | error
deriving DecidableEq, Repr

/-- State of the tracking poller: component status, last fetched order, and
whether the component has been torn down (unmounted). -/
structure PollerState where
  status : PStatus
  order : Option ClientOrder
  torn : Bool
deriving DecidableEq, Repr

/-- Whether a tick of the 5-second interval issues a fetch: the polling
useEffect keeps the interval installed exactly while the component is
mounted, the status is polling and an order id is known; the cleanup clears
it otherwise. -/
def fetchIssued (s : PollerState) : Bool :=
  if s.torn then false
  else if s.status = PStatus.polling then s.order.isSome
  else false

/-- Effect of one completed fetchOrderAndTracking call (TrackingOrders.tsx
lines 23-46) on the poller state: a failed order fetch moves to the error
state; a fetched order with an AWB code moves to success (and the interval
is cleared); a fetched order without one moves to (or stays in) polling. -/
def fetchApply (r : Except Unit ClientOrder) (s : PollerState) : PollerState :=
  match r with
  | Except.error _ => { s with status := PStatus.error }
  | Except.ok o =>
      if o.awbCode.isSome then
        { status := PStatus.success, order := some o, torn := s.torn }
      else
        { status := PStatus.polling, order := some o, torn := s.torn }

/-- One event of the poller transition system: a 5-second interval tick
carrying the result the fetch would return, or the component teardown. -/
inductive PollerEvent where
  | tick (r : Except Unit ClientOrder)
  | teardown

/-- One step of the poller: a tick applies the fetch result only when the
interval is installed and the state is polling; teardown clears the
interval and marks the component unmounted. -/
def pollerStep (e : PollerEvent) (s : PollerState) : PollerState :=
  match e with
  | PollerEvent.tick r => if fetchIssued s then fetchApply r s else s
  | PollerEvent.teardown => { s with torn := true }

/-- Whether handling event e in state s issues a fetch. -/
def eventIssuesFetch (e : PollerEvent) (s : PollerState) : Bool :=
  match e with
  | PollerEvent.tick _ => fetchIssued s
  | PollerEvent.teardown => false

/-- True when running the given event sequence from s issues no fetch at
any point. -/
def fetchFreeRun (s : PollerState) : List PollerEvent → Bool
  | [] => true
  | e :: evs => !eventIssuesFetch e s && fetchFreeRun (pollerStep e s) evs

/-- The mount effect of the component (lines 49-62): one initial
fetchOrderAndTracking call from the loading state. -/
def mountPoller (r : Except Unit ClientOrder) : PollerState :=
  fetchApply r { status := PStatus.loading, order := none, torn := false }

lemma findOrder_id {store : List Order} {oid : String} {o : Order}
    (h : findOrder store oid = some o) : o.id = oid := by
  have h' : store.find? (fun x => x.id = oid) = some o := h
  simpa using List.find?_some h'

lemma findOrder_cons (a : Order) (l : List Order) (oid : String) :
    findOrder (a :: l) oid = if a.id = oid then some a else findOrder l oid := by
  by_cases h : a.id = oid
  · simp [findOrder, List.find?_cons_of_pos, h]
  · simp [findOrder, List.find?_cons_of_neg, h]

lemma saveOrder_cons (a : Order) (l : List Order) (o1 : Order) :
    saveOrder (a :: l) o1 = (if a.id = o1.id then o1 else a) :: saveOrder l o1 := by
  simp [saveOrder]

lemma findOrder_saveOrder_self {store : List Order} {o0 o1 : Order}
    (h : findOrder store o1.id = some o0) :
    findOrder (saveOrder store o1) o1.id = some o1 := by
  induction store with
  | nil => simp [findOrder] at h
  | cons a l ih =>
      rw [saveOrder_cons, findOrder_cons]
      rw [findOrder_cons] at h
      by_cases ha : a.id = o1.id
      · simp [ha]
      · simp only [ha, if_false] at h ⊢
        exact ih h

lemma findOrder_saveOrder_other {store : List Order} {o1 : Order} {oid : String}
    (h : oid ≠ o1.id) :
    findOrder (saveOrder store o1) oid = findOrder store oid := by
  induction store with
  | nil => simp [findOrder, saveOrder]
  | cons a l ih =>
      rw [saveOrder_cons, findOrder_cons, findOrder_cons]
      by_cases ha : a.id = o1.id
      · have hne : ¬ o1.id = oid := fun hh => h hh.symm
        have hne2 : ¬ a.id = oid := by rw [ha]; exact hne
        simp only [ha, if_true, hne, hne2, if_false]
        exact ih
      · simp only [ha, if_false]
        by_cases hb : a.id = oid
        · simp [hb]
        · simp only [hb, if_false]
          exact ih

lemma webhook_hmac_error {env : Env} {store : List Order} {signature : Option String}
    {body : WebhookBody} {e : Unit} (h : env.hmac body.raw = Except.error e) :
    webhookHandler env store signature body =
      { status := 500, store := store, effects := [] } := by
  simp only [webhookHandler, h]

lemma webhook_sig_mismatch {env : Env} {store : List Order} {signature : Option String}
    {body : WebhookBody} {exp : String} (h : env.hmac body.raw = Except.ok exp)
    (hs : signature ≠ some exp) :
    webhookHandler env store signature body =
      { status := 400, store := store, effects := [] } := by
  simp only [webhookHandler, h]
  simp [hs]

lemma webhook_other_event {env : Env} {store : List Order} {signature : Option String}
    {body : WebhookBody} {exp : String} (h : env.hmac body.raw = Except.ok exp)
    (hs : signature = some exp) (he : body.event ≠ "payment_link.paid") :
    webhookHandler env store signature body =
      { status := 200, store := store, effects := [] } := by
  simp only [webhookHandler, h]
  simp [hs, he]

lemma webhook_missing_payload {env : Env} {store : List Order} {signature : Option String}
    {body : WebhookBody} {exp : String} (h : env.hmac body.raw = Except.ok exp)
    (hs : signature = some exp) (he : body.event = "payment_link.paid")
    (hp : body.payload = none) :
    webhookHandler env store signature body =
      { status := 500, store := store, effects := [] } := by
  simp only [webhookHandler, h]
  simp [hs, he, hp]

lemma webhook_missing_oid {env : Env} {store : List Order} {signature : Option String}
    {body : WebhookBody} {exp : String} {notes : NotesPayload}
    (h : env.hmac body.raw = Except.ok exp)
    (hs : signature = some exp) (he : body.event = "payment_link.paid")
    (hp : body.payload = some notes)
    (hn : notes.internal_order_id = none ∨ notes.internal_order_id = some "") :
    webhookHandler env store signature body =
      { status := 400, store := store, effects := [] } := by
  simp only [webhookHandler, h]
  rcases hn with hn | hn <;> simp [hs, he, hp, hn]

lemma webhook_order_not_found {env : Env} {store : List Order} {signature : Option String}
    {body : WebhookBody} {exp : String} {notes : NotesPayload} {oid : String}
    (h : env.hmac body.raw = Except.ok exp)
    (hs : signature = some exp) (he : body.event = "payment_link.paid")
    (hp : body.payload = some notes) (hn : notes.internal_order_id = some oid)
    (h6 : oid ≠ "") (h7 : findOrder store oid = none) :
    webhookHandler env store signature body =
      { status := 404, store := store, effects := [] } := by
  simp only [webhookHandler, h]
  simp [hs, he, hp, hn, h6, h7]

lemma webhook_already_paid {env : Env} {store : List Order} {signature : Option String}
    {body : WebhookBody} {exp : String} {notes : NotesPayload} {oid : String} {order : Order}
    (h : env.hmac body.raw = Except.ok exp)
    (hs : signature = some exp) (he : body.event = "payment_link.paid")
    (hp : body.payload = some notes) (hn : notes.internal_order_id = some oid)
    (h6 : oid ≠ "") (h7 : findOrder store oid = some order)
    (h8 : order.paymentStatus = PaymentStatus.paid) :
    webhookHandler env store signature body =
      { status := 200, store := store, effects := [] } := by
  simp only [webhookHandler, h]
  simp [hs, he, hp, hn, h6, h7, h8]

lemma webhook_eq_process {env : Env} {store : List Order} {signature : Option String}
    {body : WebhookBody} {exp : String} {notes : NotesPayload} {oid : String} {order : Order}
    (h : env.hmac body.raw = Except.ok exp)
    (hs : signature = some exp) (he : body.event = "payment_link.paid")
    (hp : body.payload = some notes) (hn : notes.internal_order_id = some oid)
    (h6 : oid ≠ "") (h7 : findOrder store oid = some order)
    (h8 : order.paymentStatus ≠ PaymentStatus.paid) :
    webhookHandler env store signature body = processPaidOrder env store order := by
  simp only [webhookHandler, h]
  simp [hs, he, hp, hn, h6, h7, h8]

@[simp] lemma paidOrder_id (o : Order) : (paidOrder o).id = o.id := rfl

@[simp] lemma paidOrder_user (o : Order) : (paidOrder o).user = o.user := rfl

@[simp] lemma paidOrder_paymentStatus (o : Order) :
    (paidOrder o).paymentStatus = PaymentStatus.paid := rfl

@[simp] lemma paidOrder_status (o : Order) :
    (paidOrder o).status = OrderStatus.Placed := rfl

@[simp] lemma paidOrder_adminStatus (o : Order) :
    (paidOrder o).adminStatus = o.adminStatus := rfl

@[simp] lemma paidOrder_shipmentDetails (o : Order) :
    (paidOrder o).shipmentDetails = o.shipmentDetails := rfl

@[simp] lemma shippingErrorOrder_id (o : Order) : (shippingErrorOrder o).id = o.id := rfl

@[simp] lemma shippingErrorOrder_user (o : Order) :
    (shippingErrorOrder o).user = o.user := rfl

@[simp] lemma shippingErrorOrder_paymentStatus (o : Order) :
    (shippingErrorOrder o).paymentStatus = o.paymentStatus := rfl

@[simp] lemma shippingErrorOrder_status (o : Order) :
    (shippingErrorOrder o).status = o.status := rfl

@[simp] lemma shippingErrorOrder_adminStatus (o : Order) :
    (shippingErrorOrder o).adminStatus = some "shipping_error" := rfl

@[simp] lemma shippingErrorOrder_shipmentDetails (o : Order) :
    (shippingErrorOrder o).shipmentDetails = o.shipmentDetails := rfl

@[simp] lemma shippedOrder_id (o : Order) (sr : ShiprocketOrderResp) (awb : AwbData) :
    (shippedOrder o sr awb).id = o.id := rfl

@[simp] lemma shippedOrder_user (o : Order) (sr : ShiprocketOrderResp) (awb : AwbData) :
    (shippedOrder o sr awb).user = o.user := rfl

@[simp] lemma shippedOrder_paymentStatus (o : Order) (sr : ShiprocketOrderResp) (awb : AwbData) :
    (shippedOrder o sr awb).paymentStatus = o.paymentStatus := rfl

@[simp] lemma shippedOrder_status (o : Order) (sr : ShiprocketOrderResp) (awb : AwbData) :
    (shippedOrder o sr awb).status = o.status := rfl

@[simp] lemma shippedOrder_adminStatus (o : Order) (sr : ShiprocketOrderResp) (awb : AwbData) :
    (shippedOrder o sr awb).adminStatus = o.adminStatus := rfl

@[simp] lemma shippedOrder_shipmentDetails (o : Order) (sr : ShiprocketOrderResp) (awb : AwbData) :
    (shippedOrder o sr awb).shipmentDetails =
      some ⟨sr.order_id, sr.shipment_id, awb.status, awb.awb_code, awb.courier_name⟩ := rfl

lemma process_cart_fail {env : Env} {store : List Order} {order : Order} {u : String} {e : Unit}
    (hu : order.user = some u) (hc : env.cartClear = Except.error e) :
    processPaidOrder env store order =
      { status := 500, store := saveOrder store (paidOrder order),
        effects := [Effect.saveOrder (paidOrder order), Effect.clearCart u] } := by
  simp only [processPaidOrder, paidOrder_user, hu, hc]

lemma process_with_user {env : Env} {store : List Order} {order : Order} {u : String} {x : Unit}
    (hu : order.user = some u) (hc : env.cartClear = Except.ok x) :
    processPaidOrder env store order =
      shipmentPhase env (saveOrder store (paidOrder order)) (paidOrder order)
        [Effect.saveOrder (paidOrder order), Effect.clearCart u] := by
  simp only [processPaidOrder, paidOrder_user, hu, hc]

lemma process_no_user {env : Env} {store : List Order} {order : Order}
    (hu : order.user = none) :
    processPaidOrder env store order =
      shipmentPhase env (saveOrder store (paidOrder order)) (paidOrder order)
        [Effect.saveOrder (paidOrder order)] := by
  simp only [processPaidOrder, paidOrder_user, hu]

lemma shipmentPhase_create_fail {env : Env} {store : List Order} {order : Order}
    {effs : List Effect} {e : Unit} (hc : env.createShipment = Except.error e) :
    shipmentPhase env store order effs =
      { status := 200, store := saveOrder store (shippingErrorOrder order),
        effects := effs ++ [Effect.createShipmentCall order.id,
          Effect.saveOrder (shippingErrorOrder order)] } := by
  simp only [shipmentPhase, hc]

lemma shipmentPhase_assign_fail {env : Env} {store : List Order} {order : Order}
    {effs : List Effect} {sr : ShiprocketOrderResp} {e : Unit}
    (hc : env.createShipment = Except.ok sr)
    (ha : env.assignCourier sr.shipment_id = Except.error e) :
    shipmentPhase env store order effs =
      { status := 200, store := saveOrder store (shippingErrorOrder order),
        effects := effs ++ [Effect.createShipmentCall order.id,
          Effect.assignCourierCall sr.shipment_id,
          Effect.saveOrder (shippingErrorOrder order)] } := by
  simp only [shipmentPhase, hc, ha]

lemma shipmentPhase_ok {env : Env} {store : List Order} {order : Order}
    {effs : List Effect} {sr : ShiprocketOrderResp} {awb : AwbData}
    (hc : env.createShipment = Except.ok sr)
    (ha : env.assignCourier sr.shipment_id = Except.ok awb) :
    shipmentPhase env store order effs =
      { status := 200, store := saveOrder store (shippedOrder order sr awb),
        effects :=
          let base := effs ++ [Effect.createShipmentCall order.id,
            Effect.assignCourierCall sr.shipment_id,
            Effect.saveOrder (shippedOrder order sr awb)]
          if env.ioPresent then base ++ [Effect.emitNewOrder (shippedOrder order sr awb)]
          else base } := by
  simp only [shipmentPhase, hc, ha]

lemma shipmentPhase_effects_shape (env : Env) (store : List Order) (order : Order)
    (effs : List Effect) :
    ∃ t, (shipmentPhase env store order effs).effects = effs ++ t := by
  rcases hc : env.createShipment with e | sr
  · exact ⟨_, by rw [shipmentPhase_create_fail hc]⟩
  · rcases ha : env.assignCourier sr.shipment_id with e | awb
    · exact ⟨_, by rw [shipmentPhase_assign_fail hc ha]⟩
    · rw [shipmentPhase_ok hc ha]
      by_cases hio : env.ioPresent
      · refine ⟨[Effect.createShipmentCall order.id,
          Effect.assignCourierCall sr.shipment_id,
          Effect.saveOrder (shippedOrder order sr awb),
          Effect.emitNewOrder (shippedOrder order sr awb)], ?_⟩
        simp [hio]
      · refine ⟨[Effect.createShipmentCall order.id,
          Effect.assignCourierCall sr.shipment_id,
          Effect.saveOrder (shippedOrder order sr awb)], ?_⟩
        simp [hio]

/-- A concrete order fixture: unpaid, freshly created, owned by user u1. -/
def sampleOrder : Order :=
  { id := "o1", user := some "u1", paymentStatus := PaymentStatus.pending,
    status := OrderStatus.Created, adminStatus := none, shipmentDetails := none }

/-- A concrete webhook body fixture referencing sampleOrder. -/
def sampleBody : WebhookBody :=
  { event := "payment_link.paid", payload := some ⟨some "o1"⟩, raw := "RAW" }

/-- A concrete HMAC oracle: deterministic digest of the serialized body. -/
def sampleHmac : String → Except Unit String := fun s => Except.ok ("sig:" ++ s)

/-- A concrete environment where every external call succeeds. -/
def sampleEnv : Env :=
  { hmac := sampleHmac, cartClear := Except.ok (),
    createShipment := Except.ok ⟨"SR1", "SH1"⟩,
    assignCourier := fun _ => Except.ok ⟨"AWB_ASSIGNED", "AWB123", "Delhivery"⟩,
    ioPresent := true }

/-- A webhook body fixture whose notes carry no internal order id. -/
def bodyNoOid : WebhookBody :=
  { event := "payment_link.paid", payload := some ⟨none⟩, raw := "RAW" }

/-- A webhook body fixture referencing an order id absent from the store. -/
def bodyUnknownOid : WebhookBody :=
  { event := "payment_link.paid", payload := some ⟨some "ghost"⟩, raw := "RAW" }

/-- Claim C5: for every inbound payload, the handler compares the signature
header against the HMAC digest computed over exactly the raw serialized
body; an incorrect or missing signature is rejected with 400, a digest
computation error is rejected with 500, and in both cases the order store
is not mutated and no effect of any kind is issued. -/
theorem webhook_signature_enforced (env : Env) (store : List Order)
    (signature : Option String) (body : WebhookBody) :
    (∀ exp, env.hmac body.raw = Except.ok exp → signature ≠ some exp →
      webhookHandler env store signature body =
        { status := 400, store := store, effects := [] }) ∧
    (∀ e, env.hmac body.raw = Except.error e →
      webhookHandler env store signature body =
        { status := 500, store := store, effects := [] }) :=
  ⟨fun _ h hs => webhook_sig_mismatch h hs, fun _ h => webhook_hmac_error h⟩

/-- Witness for C5: at a concrete store and body, a wrong signature and a
missing signature are both rejected with 400 and leave the store intact. -/
theorem webhook_signature_enforced_witness :
    webhookHandler sampleEnv [sampleOrder] (some "bad") sampleBody =
      { status := 400, store := [sampleOrder], effects := [] } ∧
    webhookHandler sampleEnv [sampleOrder] none sampleBody =
      { status := 400, store := [sampleOrder], effects := [] } :=
  ⟨(webhook_signature_enforced sampleEnv [sampleOrder] (some "bad") sampleBody).1
      "sig:RAW" rfl (by decide),
   (webhook_signature_enforced sampleEnv [sampleOrder] none sampleBody).1
      "sig:RAW" rfl (by decide)⟩

/-- Claim C6: for a verified payment_link.paid event whose notes lack the
internal order id (absent or empty, both falsy in the source), the handler
answers 400 with no further processing and no store mutation; when the id
is present but no order matches it, the handler instead answers 404, again
with no mutation — and the two outcomes are distinct status codes. -/
theorem webhook_missing_order_id_rejected (env : Env) (store : List Order)
    (signature : Option String) (body : WebhookBody) (exp : String)
    (notes : NotesPayload) (oid : String) :
    (env.hmac body.raw = Except.ok exp → signature = some exp →
      body.event = "payment_link.paid" → body.payload = some notes →
      (notes.internal_order_id = none ∨ notes.internal_order_id = some "") →
      webhookHandler env store signature body =
        { status := 400, store := store, effects := [] }) ∧
    (env.hmac body.raw = Except.ok exp → signature = some exp →
      body.event = "payment_link.paid" → body.payload = some notes →
      notes.internal_order_id = some oid → oid ≠ "" → findOrder store oid = none →
      webhookHandler env store signature body =
        { status := 404, store := store, effects := [] }) ∧
    (400 : Nat) ≠ 404 :=
  ⟨fun h hs he hp hn => webhook_missing_oid h hs he hp hn,
   fun h hs he hp hn h6 h7 => webhook_order_not_found h hs he hp hn h6 h7,
   by decide⟩

/-- Witness for C6: at concrete inputs, a missing order id yields 400 and an
unknown order id yields 404, both leaving the store intact. -/
theorem webhook_missing_order_id_rejected_witness :
    webhookHandler sampleEnv [sampleOrder] (some "sig:RAW") bodyNoOid =
      { status := 400, store := [sampleOrder], effects := [] } ∧
    webhookHandler sampleEnv [sampleOrder] (some "sig:RAW") bodyUnknownOid =
      { status := 404, store := [sampleOrder], effects := [] } :=
  ⟨(webhook_missing_order_id_rejected sampleEnv [sampleOrder] (some "sig:RAW")
      bodyNoOid "sig:RAW" ⟨none⟩ "x").1 rfl rfl rfl rfl (Or.inl rfl),
   (webhook_missing_order_id_rejected sampleEnv [sampleOrder] (some "sig:RAW")
      bodyUnknownOid "sig:RAW" ⟨some "ghost"⟩ "ghost").2.1 rfl rfl rfl rfl rfl
      (by decide) (by decide)⟩

lemma findOrder_saveOrder_of_id {store : List Order} {o0 o1 : Order} {oid : String}
    (hid : o1.id = oid) (h : findOrder store oid = some o0) :
    findOrder (saveOrder store o1) oid = some o1 := by
  subst hid
  exact findOrder_saveOrder_self h

lemma shipmentPhase_store_find (env : Env) {store : List Order} {order : Order} {o0 : Order}
    (effs : List Effect) (h : findOrder store order.id = some o0) :
    ∃ o', findOrder (shipmentPhase env store order effs).store order.id = some o' ∧
      o'.paymentStatus = order.paymentStatus ∧ o'.status = order.status := by
  rcases hc : env.createShipment with e | sr
  · rw [shipmentPhase_create_fail hc]
    exact ⟨shippingErrorOrder order,
      findOrder_saveOrder_of_id (shippingErrorOrder_id order) h, rfl, rfl⟩
  · rcases ha : env.assignCourier sr.shipment_id with e | awb
    · rw [shipmentPhase_assign_fail hc ha]
      exact ⟨shippingErrorOrder order,
        findOrder_saveOrder_of_id (shippingErrorOrder_id order) h, rfl, rfl⟩
    · rw [shipmentPhase_ok hc ha]
      exact ⟨shippedOrder order sr awb,
        findOrder_saveOrder_of_id (shippedOrder_id order sr awb) h, rfl, rfl⟩

lemma process_store_paid (env : Env) {store : List Order} {order : Order} {o0 : Order}
    (h : findOrder store order.id = some o0) :
    ∃ o', findOrder (processPaidOrder env store order).store order.id = some o' ∧
      o'.paymentStatus = PaymentStatus.paid ∧ o'.status = OrderStatus.Placed := by
  have hfind1 : findOrder (saveOrder store (paidOrder order)) order.id =
      some (paidOrder order) :=
    findOrder_saveOrder_of_id (paidOrder_id order) h
  have hfind1' : findOrder (saveOrder store (paidOrder order)) (paidOrder order).id =
      some (paidOrder order) := by rw [paidOrder_id]; exact hfind1
  rcases hu : order.user with _ | u
  · rw [process_no_user hu]
    obtain ⟨o', ho', hp, hs⟩ :=
      shipmentPhase_store_find env [Effect.saveOrder (paidOrder order)] hfind1'
    rw [paidOrder_id] at ho'
    exact ⟨o', ho', by rw [hp, paidOrder_paymentStatus], by rw [hs, paidOrder_status]⟩
  · rcases hcc : env.cartClear with e | x
    · rw [process_cart_fail hu hcc]
      exact ⟨paidOrder order, hfind1, rfl, rfl⟩
    · rw [process_with_user hu hcc]
      obtain ⟨o', ho', hp, hs⟩ := shipmentPhase_store_find env
        [Effect.saveOrder (paidOrder order), Effect.clearCart u] hfind1'
      rw [paidOrder_id] at ho'
      exact ⟨o', ho', by rw [hp, paidOrder_paymentStatus], by rw [hs, paidOrder_status]⟩

lemma shipmentPhase_counts (env : Env) (store : List Order) (order : Order)
    (effs : List Effect) :
    ((shipmentPhase env store order effs).effects.countP Effect.isClearCart =
      effs.countP Effect.isClearCart) ∧
    ((shipmentPhase env store order effs).effects.countP Effect.isCreateShipment =
      effs.countP Effect.isCreateShipment + 1) := by
  rcases hc : env.createShipment with e | sr
  · rw [shipmentPhase_create_fail hc]
    simp [List.countP_append, List.countP_cons, Effect.isClearCart,
      Effect.isCreateShipment]
  · rcases ha : env.assignCourier sr.shipment_id with e | awb
    · rw [shipmentPhase_assign_fail hc ha]
      simp [List.countP_append, List.countP_cons, Effect.isClearCart,
        Effect.isCreateShipment]
    · rw [shipmentPhase_ok hc ha]
      by_cases hio : env.ioPresent <;>
        simp [hio, List.countP_append, List.countP_cons, Effect.isClearCart,
          Effect.isCreateShipment]

lemma shipmentPhase_emit_ok {env : Env} {store : List Order} {order : Order}
    {effs : List Effect} {sr : ShiprocketOrderResp} {awb : AwbData}
    (hc : env.createShipment = Except.ok sr)
    (ha : env.assignCourier sr.shipment_id = Except.ok awb)
    (hio : env.ioPresent = true) :
    (shipmentPhase env store order effs).effects.countP Effect.isEmitNewOrder =
      effs.countP Effect.isEmitNewOrder + 1 := by
  rw [shipmentPhase_ok hc ha]
  simp [hio, List.countP_append, List.countP_cons, Effect.isEmitNewOrder]

lemma process_counts_user (env : Env) (store : List Order) {order : Order} {u : String}
    (hu : order.user = some u) :
    ((processPaidOrder env store order).effects.countP Effect.isClearCart = 1) ∧
    ((processPaidOrder env store order).effects.countP Effect.isCreateShipment ≤ 1) := by
  rcases hcc : env.cartClear with e | x
  · rw [process_cart_fail hu hcc]
    simp [List.countP_cons, Effect.isClearCart, Effect.isCreateShipment]
  · rw [process_with_user hu hcc]
    obtain ⟨h1, h2⟩ := shipmentPhase_counts env (saveOrder store (paidOrder order))
      (paidOrder order) [Effect.saveOrder (paidOrder order), Effect.clearCart u]
    rw [h1, h2]
    simp [List.countP_cons, Effect.isClearCart, Effect.isCreateShipment]

/-- Claim C1: a verified payment-confirmed webhook for an order already
marked paid is a no-op: 200 success, store unchanged, no effect issued.
Consequently two deliveries of the same verified webhook for one order
(the first on the unpaid order) issue exactly one cart-clear and at most
one shipment-creation call, the second delivery being the no-op. -/
theorem webhook_idempotent_replay (env1 env2 : Env) (store : List Order)
    (signature : Option String) (body : WebhookBody) (exp : String)
    (notes : NotesPayload) (oid : String) (order : Order) (u : String)
    (h1 : env1.hmac body.raw = Except.ok exp) (hs : signature = some exp)
    (he : body.event = "payment_link.paid") (hp : body.payload = some notes)
    (hn : notes.internal_order_id = some oid) (h6 : oid ≠ "")
    (h7 : findOrder store oid = some order) :
    (order.paymentStatus = PaymentStatus.paid →
      webhookHandler env1 store signature body =
        { status := 200, store := store, effects := [] }) ∧
    (order.paymentStatus ≠ PaymentStatus.paid → order.user = some u →
      env2.hmac body.raw = Except.ok exp →
      webhookHandler env2 (webhookHandler env1 store signature body).store signature body =
        { status := 200,
          store := (webhookHandler env1 store signature body).store, effects := [] } ∧
      ((webhookHandler env1 store signature body).effects ++
        (webhookHandler env2 (webhookHandler env1 store signature body).store
          signature body).effects).countP Effect.isClearCart = 1 ∧
      ((webhookHandler env1 store signature body).effects ++
        (webhookHandler env2 (webhookHandler env1 store signature body).store
          signature body).effects).countP Effect.isCreateShipment ≤ 1) := by
  constructor
  · intro h8
    exact webhook_already_paid h1 hs he hp hn h6 h7 h8
  · intro h8 hu hh2
    have hid : order.id = oid := findOrder_id h7
    have hr1 : webhookHandler env1 store signature body = processPaidOrder env1 store order :=
      webhook_eq_process h1 hs he hp hn h6 h7 h8
    have hfind0 : findOrder store order.id = some order := by rw [hid]; exact h7
    obtain ⟨o', ho', hpaid, _⟩ := process_store_paid env1 hfind0
    have hfind' : findOrder (processPaidOrder env1 store order).store oid = some o' := by
      rw [← hid]; exact ho'
    have hr2 : webhookHandler env2 (processPaidOrder env1 store order).store signature body =
        { status := 200, store := (processPaidOrder env1 store order).store,
          effects := [] } :=
      webhook_already_paid hh2 hs he hp hn h6 hfind' hpaid
    obtain ⟨hc1, hc2⟩ := process_counts_user env1 store hu
    refine ⟨by rw [hr1]; exact hr2, ?_, ?_⟩
    · rw [hr1, hr2]
      simpa using hc1
    · rw [hr1, hr2]
      simpa using hc2

/-- Witness for C1: concrete double delivery of the same verified webhook;
the second delivery is a no-op and the combined trace has exactly one
cart-clear and at most one shipment creation. -/
theorem webhook_idempotent_replay_witness :
    webhookHandler sampleEnv
        (webhookHandler sampleEnv [sampleOrder] (some "sig:RAW") sampleBody).store
        (some "sig:RAW") sampleBody =
      { status := 200,
        store := (webhookHandler sampleEnv [sampleOrder] (some "sig:RAW") sampleBody).store,
        effects := [] } ∧
    ((webhookHandler sampleEnv [sampleOrder] (some "sig:RAW") sampleBody).effects ++
      (webhookHandler sampleEnv
        (webhookHandler sampleEnv [sampleOrder] (some "sig:RAW") sampleBody).store
        (some "sig:RAW") sampleBody).effects).countP Effect.isClearCart = 1 ∧
    ((webhookHandler sampleEnv [sampleOrder] (some "sig:RAW") sampleBody).effects ++
      (webhookHandler sampleEnv
        (webhookHandler sampleEnv [sampleOrder] (some "sig:RAW") sampleBody).store
        (some "sig:RAW") sampleBody).effects).countP Effect.isCreateShipment ≤ 1 :=
  (webhook_idempotent_replay sampleEnv sampleEnv [sampleOrder] (some "sig:RAW")
      sampleBody "sig:RAW" ⟨some "o1"⟩ "o1" sampleOrder "u1"
      rfl rfl rfl rfl rfl (by decide) rfl).2 (by decide) rfl rfl

lemma shipmentPhase_status (env : Env) (store : List Order) (order : Order)
    (effs : List Effect) : (shipmentPhase env store order effs).status = 200 := by
  rcases hc : env.createShipment with e | sr
  · rw [shipmentPhase_create_fail hc]
  · rcases ha : env.assignCourier sr.shipment_id with e | awb
    · rw [shipmentPhase_assign_fail hc ha]
    · rw [shipmentPhase_ok hc ha]

lemma shipmentPhase_congr {env env2 : Env}
    (hc : env2.createShipment = env.createShipment)
    (ha : env2.assignCourier = env.assignCourier)
    (hio : env2.ioPresent = env.ioPresent)
    (store : List Order) (order : Order) (effs : List Effect) :
    shipmentPhase env2 store order effs = shipmentPhase env store order effs := by
  simp only [shipmentPhase, hc, ha, hio]

lemma process_to_shipmentPhase (env : Env) (store : List Order) {order : Order}
    (hcart : order.user = none ∨ env.cartClear = Except.ok ()) :
    ∃ effs0, processPaidOrder env store order =
      shipmentPhase env (saveOrder store (paidOrder order)) (paidOrder order) effs0 ∧
      effs0.countP Effect.isCreateShipment = 0 ∧
      effs0.countP Effect.isEmitNewOrder = 0 := by
  rcases hu : order.user with _ | u
  · refine ⟨[Effect.saveOrder (paidOrder order)], process_no_user hu, ?_, ?_⟩ <;>
      simp [List.countP_cons, Effect.isCreateShipment, Effect.isEmitNewOrder]
  · rcases hcart with hnone | hok
    · rw [hu] at hnone; cases hnone
    · refine ⟨[Effect.saveOrder (paidOrder order), Effect.clearCart u],
        process_with_user hu hok, ?_, ?_⟩ <;>
        simp [List.countP_cons, Effect.isCreateShipment, Effect.isEmitNewOrder]

/-- Claim C2: on a verified payment-confirmed webhook for an existing unpaid
order, if either courier-gateway call fails, the order stays paid and
Placed, adminStatus becomes shipping_error, shipmentDetails stays
unpopulated, and the handler still answers 200 — the courier exception does
not escape to the webhook caller. -/
theorem webhook_shipment_failure_isolated (env : Env) (store : List Order)
    (signature : Option String) (body : WebhookBody) (exp : String)
    (notes : NotesPayload) (oid : String) (order : Order)
    (h1 : env.hmac body.raw = Except.ok exp) (hs : signature = some exp)
    (he : body.event = "payment_link.paid") (hp : body.payload = some notes)
    (hn : notes.internal_order_id = some oid) (h6 : oid ≠ "")
    (h7 : findOrder store oid = some order)
    (h8 : order.paymentStatus ≠ PaymentStatus.paid)
    (h9 : order.shipmentDetails = none)
    (hcart : order.user = none ∨ env.cartClear = Except.ok ())
    (hfail : (∃ e, env.createShipment = Except.error e) ∨
      ∃ sr e, env.createShipment = Except.ok sr ∧
        env.assignCourier sr.shipment_id = Except.error e) :
    (webhookHandler env store signature body).status = 200 ∧
    ∃ o', findOrder (webhookHandler env store signature body).store oid = some o' ∧
      o'.paymentStatus = PaymentStatus.paid ∧ o'.status = OrderStatus.Placed ∧
      o'.adminStatus = some "shipping_error" ∧ o'.shipmentDetails = none := by
  have hid : order.id = oid := findOrder_id h7
  rw [webhook_eq_process h1 hs he hp hn h6 h7 h8]
  obtain ⟨effs0, hproc, _, _⟩ := process_to_shipmentPhase env store hcart
  rw [hproc]
  have hfind1 : findOrder (saveOrder store (paidOrder order)) oid = some (paidOrder order) :=
    findOrder_saveOrder_of_id (by rw [paidOrder_id, hid]) h7
  have hfind2 : findOrder
      (saveOrder (saveOrder store (paidOrder order))
        (shippingErrorOrder (paidOrder order))) oid =
      some (shippingErrorOrder (paidOrder order)) :=
    findOrder_saveOrder_of_id (by rw [shippingErrorOrder_id, paidOrder_id, hid]) hfind1
  rcases hfail with ⟨e, hce⟩ | ⟨sr, e, hcs, hae⟩
  · rw [shipmentPhase_create_fail hce]
    exact ⟨rfl, shippingErrorOrder (paidOrder order), hfind2, rfl, rfl, rfl, by simp [h9]⟩
  · rw [shipmentPhase_assign_fail hcs hae]
    exact ⟨rfl, shippingErrorOrder (paidOrder order), hfind2, rfl, rfl, rfl, by simp [h9]⟩

/-- A concrete environment where shipment creation fails upstream. -/
def envShipFail : Env := { sampleEnv with createShipment := Except.error () }

/-- Witness for C2: at a concrete failing shipment creation, the webhook
answers 200 and the stored order is paid, Placed, flagged shipping_error,
with shipmentDetails still empty. -/
theorem webhook_shipment_failure_isolated_witness :
    (webhookHandler envShipFail [sampleOrder] (some "sig:RAW") sampleBody).status = 200 ∧
    ∃ o', findOrder (webhookHandler envShipFail [sampleOrder]
        (some "sig:RAW") sampleBody).store "o1" = some o' ∧
      o'.paymentStatus = PaymentStatus.paid ∧ o'.status = OrderStatus.Placed ∧
      o'.adminStatus = some "shipping_error" ∧ o'.shipmentDetails = none :=
  webhook_shipment_failure_isolated envShipFail [sampleOrder] (some "sig:RAW")
    sampleBody "sig:RAW" ⟨some "o1"⟩ "o1" sampleOrder
    rfl rfl rfl rfl rfl (by decide) rfl (by decide) rfl
    (Or.inr rfl) (Or.inl ⟨(), rfl⟩)

/-- A concrete environment where the cart-clear update rejects. -/
def envCartFail : Env := { sampleEnv with cartClear := Except.error () }

/-- Counterexample to C7 as stated: at a concrete verified delivery for an
unpaid order whose cart-clear rejects, the handler answers 500 (not 2xx)
and issues no shipment-creation call, while the otherwise identical run
with a succeeding cart-clear answers 200 and issues one — so a cart-clear
failure does block the remainder of the flow and changes the outcome. -/
theorem cart_clear_failure_blocks_flow_cex :
    (webhookHandler envCartFail [sampleOrder] (some "sig:RAW") sampleBody).status = 500 ∧
    (webhookHandler envCartFail [sampleOrder] (some "sig:RAW")
      sampleBody).effects.countP Effect.isCreateShipment = 0 ∧
    (webhookHandler sampleEnv [sampleOrder] (some "sig:RAW") sampleBody).status = 200 ∧
    (webhookHandler sampleEnv [sampleOrder] (some "sig:RAW")
      sampleBody).effects.countP Effect.isCreateShipment = 1 := by
  refine ⟨rfl, rfl, rfl, rfl⟩

/-- Claim C7 amended: on a verified payment-confirmed webhook for an
existing unpaid order with an owning user, a cart-clear failure is caught
only by the outer catch: the handler answers 500 and does not attempt
shipment creation, but the paid/Placed persist that already happened is
retained in the store. -/
theorem cart_clear_failure_amended (env : Env) (store : List Order)
    (signature : Option String) (body : WebhookBody) (exp : String)
    (notes : NotesPayload) (oid : String) (order : Order) (u : String) (e : Unit)
    (h1 : env.hmac body.raw = Except.ok exp) (hs : signature = some exp)
    (he : body.event = "payment_link.paid") (hp : body.payload = some notes)
    (hn : notes.internal_order_id = some oid) (h6 : oid ≠ "")
    (h7 : findOrder store oid = some order)
    (h8 : order.paymentStatus ≠ PaymentStatus.paid)
    (hu : order.user = some u) (hcc : env.cartClear = Except.error e) :
    webhookHandler env store signature body =
      { status := 500, store := saveOrder store (paidOrder order),
        effects := [Effect.saveOrder (paidOrder order), Effect.clearCart u] } ∧
    findOrder (saveOrder store (paidOrder order)) oid = some (paidOrder order) := by
  have hid : order.id = oid := findOrder_id h7
  refine ⟨?_, findOrder_saveOrder_of_id (by rw [paidOrder_id, hid]) h7⟩
  rw [webhook_eq_process h1 hs he hp hn h6 h7 h8]
  exact process_cart_fail hu hcc

/-- Witness for the amended C7 at the concrete counterexample input. -/
theorem cart_clear_failure_amended_witness :
    webhookHandler envCartFail [sampleOrder] (some "sig:RAW") sampleBody =
      { status := 500, store := saveOrder [sampleOrder] (paidOrder sampleOrder),
        effects := [Effect.saveOrder (paidOrder sampleOrder), Effect.clearCart "u1"] } ∧
    findOrder (saveOrder [sampleOrder] (paidOrder sampleOrder)) "o1" =
      some (paidOrder sampleOrder) :=
  cart_clear_failure_amended envCartFail [sampleOrder] (some "sig:RAW") sampleBody
    "sig:RAW" ⟨some "o1"⟩ "o1" sampleOrder "u1" ()
    rfl rfl rfl rfl rfl (by decide) rfl (by decide) rfl rfl

/-- Claim C10: on a verified payment-confirmed webhook for an existing
unpaid order without an owning-user reference, the cart-clear step is
skipped entirely (no cart-clear effect, no error), the handler proceeds
straight to the shipment phase after the payment persist, answers 200, and
its outcome does not depend on the cart-clear environment at all. -/
theorem webhook_no_user_skips_cart_clear (env : Env) (store : List Order)
    (signature : Option String) (body : WebhookBody) (exp : String)
    (notes : NotesPayload) (oid : String) (order : Order)
    (h1 : env.hmac body.raw = Except.ok exp) (hs : signature = some exp)
    (he : body.event = "payment_link.paid") (hp : body.payload = some notes)
    (hn : notes.internal_order_id = some oid) (h6 : oid ≠ "")
    (h7 : findOrder store oid = some order)
    (h8 : order.paymentStatus ≠ PaymentStatus.paid)
    (hu : order.user = none) :
    webhookHandler env store signature body =
      shipmentPhase env (saveOrder store (paidOrder order)) (paidOrder order)
        [Effect.saveOrder (paidOrder order)] ∧
    (webhookHandler env store signature body).effects.countP Effect.isClearCart = 0 ∧
    (webhookHandler env store signature body).status = 200 ∧
    (∀ env2 : Env, env2.hmac = env.hmac → env2.createShipment = env.createShipment →
      env2.assignCourier = env.assignCourier → env2.ioPresent = env.ioPresent →
      webhookHandler env2 store signature body = webhookHandler env store signature body) := by
  have hmain : webhookHandler env store signature body =
      shipmentPhase env (saveOrder store (paidOrder order)) (paidOrder order)
        [Effect.saveOrder (paidOrder order)] := by
    rw [webhook_eq_process h1 hs he hp hn h6 h7 h8]
    exact process_no_user hu
  refine ⟨hmain, ?_, ?_, ?_⟩
  · rw [hmain]
    have := (shipmentPhase_counts env (saveOrder store (paidOrder order))
      (paidOrder order) [Effect.saveOrder (paidOrder order)]).1
    rw [this]
    simp [List.countP_cons, Effect.isClearCart]
  · rw [hmain]
    exact shipmentPhase_status env _ _ _
  · intro env2 hh hc ha hio
    have h1' : env2.hmac body.raw = Except.ok exp := by rw [hh]; exact h1
    have hmain2 : webhookHandler env2 store signature body =
        shipmentPhase env2 (saveOrder store (paidOrder order)) (paidOrder order)
          [Effect.saveOrder (paidOrder order)] := by
      rw [webhook_eq_process h1' hs he hp hn h6 h7 h8]
      exact process_no_user hu
    rw [hmain, hmain2]
    exact shipmentPhase_congr hc ha hio _ _ _

/-- A concrete order without an owning user reference. -/
def orderNoUser : Order := { sampleOrder with user := none }

/-- Witness for C10 at a concrete userless order: the run equals the
shipment phase directly, has no cart-clear effect, answers 200, and agrees
with the run under the environment whose cart-clear would have failed. -/
theorem webhook_no_user_skips_cart_clear_witness :
    webhookHandler sampleEnv [orderNoUser] (some "sig:RAW") sampleBody =
      shipmentPhase sampleEnv (saveOrder [orderNoUser] (paidOrder orderNoUser))
        (paidOrder orderNoUser) [Effect.saveOrder (paidOrder orderNoUser)] ∧
    (webhookHandler sampleEnv [orderNoUser] (some "sig:RAW")
      sampleBody).effects.countP Effect.isClearCart = 0 ∧
    (webhookHandler sampleEnv [orderNoUser] (some "sig:RAW") sampleBody).status = 200 ∧
    (∀ env2 : Env, env2.hmac = sampleEnv.hmac → env2.createShipment = sampleEnv.createShipment →
      env2.assignCourier = sampleEnv.assignCourier → env2.ioPresent = sampleEnv.ioPresent →
      webhookHandler env2 [orderNoUser] (some "sig:RAW") sampleBody =
        webhookHandler sampleEnv [orderNoUser] (some "sig:RAW") sampleBody) :=
  webhook_no_user_skips_cart_clear sampleEnv [orderNoUser] (some "sig:RAW") sampleBody
    "sig:RAW" ⟨some "o1"⟩ "o1" orderNoUser
    rfl rfl rfl rfl rfl (by decide) rfl (by decide) rfl

/-- Claim C8: the end-to-end success scenario: an order created pending, a
correctly signed payment_link.paid webhook referencing it, both courier
calls succeeding, and the socket handle present, yield paymentStatus paid,
status Placed, exactly one shipment-creation call, shipmentDetails
populated from the courier responses (awbCode included), and exactly one
newOrder broadcast. -/
theorem webhook_end_to_end_success (env : Env) (store : List Order)
    (signature : Option String) (body : WebhookBody) (exp : String)
    (notes : NotesPayload) (oid : String) (order : Order)
    (sr : ShiprocketOrderResp) (awb : AwbData)
    (h1 : env.hmac body.raw = Except.ok exp) (hs : signature = some exp)
    (he : body.event = "payment_link.paid") (hp : body.payload = some notes)
    (hn : notes.internal_order_id = some oid) (h6 : oid ≠ "")
    (h7 : findOrder store oid = some order)
    (h8 : order.paymentStatus = PaymentStatus.pending)
    (hcart : order.user = none ∨ env.cartClear = Except.ok ())
    (hcs : env.createShipment = Except.ok sr)
    (ha : env.assignCourier sr.shipment_id = Except.ok awb)
    (hio : env.ioPresent = true) :
    (webhookHandler env store signature body).status = 200 ∧
    (∃ o', findOrder (webhookHandler env store signature body).store oid = some o' ∧
      o'.paymentStatus = PaymentStatus.paid ∧ o'.status = OrderStatus.Placed ∧
      o'.shipmentDetails =
        some ⟨sr.order_id, sr.shipment_id, awb.status, awb.awb_code, awb.courier_name⟩) ∧
    (webhookHandler env store signature body).effects.countP Effect.isCreateShipment = 1 ∧
    (webhookHandler env store signature body).effects.countP Effect.isEmitNewOrder = 1 := by
  have h8' : order.paymentStatus ≠ PaymentStatus.paid := by rw [h8]; decide
  have hid : order.id = oid := findOrder_id h7
  rw [webhook_eq_process h1 hs he hp hn h6 h7 h8']
  obtain ⟨effs0, hproc, hcnt1, hcnt2⟩ :=
    process_to_shipmentPhase env store hcart
  rw [hproc]
  have hfind1 : findOrder (saveOrder store (paidOrder order)) oid = some (paidOrder order) :=
    findOrder_saveOrder_of_id (by rw [paidOrder_id, hid]) h7
  have hfind2 : findOrder
      (saveOrder (saveOrder store (paidOrder order))
        (shippedOrder (paidOrder order) sr awb)) oid =
      some (shippedOrder (paidOrder order) sr awb) :=
    findOrder_saveOrder_of_id (by rw [shippedOrder_id, paidOrder_id, hid]) hfind1
  refine ⟨shipmentPhase_status env _ _ _, ?_, ?_, ?_⟩
  · rw [shipmentPhase_ok hcs ha]
    exact ⟨shippedOrder (paidOrder order) sr awb, hfind2, rfl, rfl, rfl⟩
  · rw [(shipmentPhase_counts env _ _ effs0).2, hcnt1]
  · rw [shipmentPhase_emit_ok hcs ha hio, hcnt2]

/-- Witness for C8: the concrete end-to-end success run. -/
theorem webhook_end_to_end_success_witness :
    (webhookHandler sampleEnv [sampleOrder] (some "sig:RAW") sampleBody).status = 200 ∧
    (∃ o', findOrder (webhookHandler sampleEnv [sampleOrder]
        (some "sig:RAW") sampleBody).store "o1" = some o' ∧
      o'.paymentStatus = PaymentStatus.paid ∧ o'.status = OrderStatus.Placed ∧
      o'.shipmentDetails =
        some ⟨"SR1", "SH1", "AWB_ASSIGNED", "AWB123", "Delhivery"⟩) ∧
    (webhookHandler sampleEnv [sampleOrder] (some "sig:RAW")
      sampleBody).effects.countP Effect.isCreateShipment = 1 ∧
    (webhookHandler sampleEnv [sampleOrder] (some "sig:RAW")
      sampleBody).effects.countP Effect.isEmitNewOrder = 1 :=
  webhook_end_to_end_success sampleEnv [sampleOrder] (some "sig:RAW") sampleBody
    "sig:RAW" ⟨some "o1"⟩ "o1" sampleOrder ⟨"SR1", "SH1"⟩
    ⟨"AWB_ASSIGNED", "AWB123", "Delhivery"⟩
    rfl rfl rfl rfl rfl (by decide) rfl rfl (Or.inr rfl) rfl rfl rfl

lemma process_effects_shape (env : Env) (store : List Order) (order : Order) :
    ∃ t, (processPaidOrder env store order).effects =
      Effect.saveOrder (paidOrder order) :: t := by
  rcases hu : order.user with _ | u
  · rw [process_no_user hu]
    obtain ⟨t, ht⟩ := shipmentPhase_effects_shape env (saveOrder store (paidOrder order))
      (paidOrder order) [Effect.saveOrder (paidOrder order)]
    exact ⟨t, by rw [ht]; rfl⟩
  · rcases hcc : env.cartClear with e | x
    · rw [process_cart_fail hu hcc]
      exact ⟨[Effect.clearCart u], rfl⟩
    · rw [process_with_user hu hcc]
      obtain ⟨t, ht⟩ := shipmentPhase_effects_shape env (saveOrder store (paidOrder order))
        (paidOrder order) [Effect.saveOrder (paidOrder order), Effect.clearCart u]
      exact ⟨Effect.clearCart u :: t, by rw [ht]; rfl⟩

lemma webhook_effects_shape (env : Env) (store : List Order) (signature : Option String)
    (body : WebhookBody) :
    (webhookHandler env store signature body).effects = [] ∨
    ∃ o1 t, (webhookHandler env store signature body).effects =
      Effect.saveOrder o1 :: t ∧ o1.paymentStatus = PaymentStatus.paid ∧
      o1.status = OrderStatus.Placed := by
  rcases hh : env.hmac body.raw with e | exp
  · left; rw [webhook_hmac_error hh]
  by_cases hsig : signature = some exp
  case neg => left; rw [webhook_sig_mismatch hh hsig]
  by_cases hev : body.event = "payment_link.paid"
  case neg => left; rw [webhook_other_event hh hsig hev]
  rcases hp : body.payload with _ | notes
  · left; rw [webhook_missing_payload hh hsig hev hp]
  rcases hn : notes.internal_order_id with _ | oid
  · left; rw [webhook_missing_oid hh hsig hev hp (Or.inl hn)]
  by_cases hoid : oid = ""
  case pos =>
    left
    rw [webhook_missing_oid hh hsig hev hp (Or.inr (by rw [hn, hoid]))]
  rcases h7 : findOrder store oid with _ | order
  · left; rw [webhook_order_not_found hh hsig hev hp hn hoid h7]
  by_cases h8 : order.paymentStatus = PaymentStatus.paid
  case pos => left; rw [webhook_already_paid hh hsig hev hp hn hoid h7 h8]
  right
  rw [webhook_eq_process hh hsig hev hp hn hoid h7 h8]
  obtain ⟨t, ht⟩ := process_effects_shape env store order
  exact ⟨paidOrder order, t, ht, rfl, rfl⟩

/-- Claim C4: in every webhook run, any external call in the effect trace
(cart-clear, shipment creation, courier assignment) is strictly preceded by
a persist of the order with paymentStatus paid and status Placed — so a
crash after that persist cannot lose the payment confirmation. -/
theorem webhook_persist_before_external (env : Env) (store : List Order)
    (signature : Option String) (body : WebhookBody) (i : Nat) (e : Effect)
    (hi : (webhookHandler env store signature body).effects.get? i = some e)
    (he : e.isExternal = true) :
    ∃ j o1, j < i ∧
      (webhookHandler env store signature body).effects.get? j =
        some (Effect.saveOrder o1) ∧
      o1.paymentStatus = PaymentStatus.paid ∧ o1.status = OrderStatus.Placed := by
  rcases webhook_effects_shape env store signature body with hnil | ⟨o1, t, hcons, hp, hs⟩
  · rw [hnil] at hi
    simp at hi
  · rcases i with _ | k
    · rw [hcons] at hi
      have hsave : Effect.saveOrder o1 = e := by simpa using hi
      rw [← hsave] at he
      simp [Effect.isExternal] at he
    · exact ⟨0, o1, Nat.succ_pos k, by rw [hcons]; rfl, hp, hs⟩

/-- Witness for C4: in the concrete end-to-end run, the cart-clear call at
index 1 of the trace is preceded by the paid/Placed persist. -/
theorem webhook_persist_before_external_witness :
    ∃ j o1, j < 1 ∧
      (webhookHandler sampleEnv [sampleOrder] (some "sig:RAW") sampleBody).effects.get? j =
        some (Effect.saveOrder o1) ∧
      o1.paymentStatus = PaymentStatus.paid ∧ o1.status = OrderStatus.Placed :=
  webhook_persist_before_external sampleEnv [sampleOrder] (some "sig:RAW") sampleBody
    1 (Effect.clearCart "u1") rfl rfl

/-- Invariant of the order store: an order that is not yet paid is never
past the Placed stage of the fulfillment lifecycle. It holds for stores of
freshly created orders (pending, Created) and is preserved by the handler. -/
def storeInv (store : List Order) : Prop :=
  ∀ o ∈ store, o.paymentStatus ≠ PaymentStatus.paid → statusRank o.status ≤ 1

lemma storeInv_initial {store : List Order}
    (h : ∀ o ∈ store, o.paymentStatus = PaymentStatus.pending ∧
      o.status = OrderStatus.Created) : storeInv store := by
  intro o ho _
  rw [(h o ho).2]
  decide

lemma storeInv_saveOrder {store : List Order} {X : Order} (hinv : storeInv store)
    (hX : X.paymentStatus = PaymentStatus.paid) : storeInv (saveOrder store X) := by
  intro x hx hxp
  rcases List.mem_map.mp (by simpa [saveOrder] using hx) with ⟨a, ha, hfa⟩
  by_cases h : a.id = X.id
  · rw [if_pos h] at hfa
    rw [← hfa] at hxp
    exact absurd hX hxp
  · rw [if_neg h] at hfa
    rw [← hfa] at hxp ⊢
    exact hinv a ha hxp

lemma webhook_store_cases (env : Env) (store : List Order) (signature : Option String)
    (body : WebhookBody) :
    (webhookHandler env store signature body).store = store ∨
    ∃ order, findOrder store order.id = some order ∧
      order.paymentStatus ≠ PaymentStatus.paid ∧ order ∈ store ∧
      ((webhookHandler env store signature body).store =
          saveOrder store (paidOrder order) ∨
        (webhookHandler env store signature body).store =
          saveOrder (saveOrder store (paidOrder order))
            (shippingErrorOrder (paidOrder order)) ∨
        ∃ sr awb, (webhookHandler env store signature body).store =
          saveOrder (saveOrder store (paidOrder order))
            (shippedOrder (paidOrder order) sr awb)) := by
  rcases hh : env.hmac body.raw with e | exp
  · left; rw [webhook_hmac_error hh]
  by_cases hsig : signature = some exp
  case neg => left; rw [webhook_sig_mismatch hh hsig]
  by_cases hev : body.event = "payment_link.paid"
  case neg => left; rw [webhook_other_event hh hsig hev]
  rcases hp : body.payload with _ | notes
  · left; rw [webhook_missing_payload hh hsig hev hp]
  rcases hn : notes.internal_order_id with _ | oid
  · left; rw [webhook_missing_oid hh hsig hev hp (Or.inl hn)]
  by_cases hoid : oid = ""
  case pos =>
    left
    rw [webhook_missing_oid hh hsig hev hp (Or.inr (by rw [hn, hoid]))]
  rcases h7 : findOrder store oid with _ | order
  · left; rw [webhook_order_not_found hh hsig hev hp hn hoid h7]
  by_cases h8 : order.paymentStatus = PaymentStatus.paid
  case pos => left; rw [webhook_already_paid hh hsig hev hp hn hoid h7 h8]
  right
  have hid : order.id = oid := findOrder_id h7
  have hfind : findOrder store order.id = some order := by rw [hid]; exact h7
  have hmem : order ∈ store := List.mem_of_find?_eq_some h7
  refine ⟨order, hfind, h8, hmem, ?_⟩
  rw [webhook_eq_process hh hsig hev hp hn hoid h7 h8]
  rcases hu : order.user with _ | u
  · rw [process_no_user hu]
    rcases hc : env.createShipment with e | sr
    · right; left; rw [shipmentPhase_create_fail hc]
    · rcases ha : env.assignCourier sr.shipment_id with e | awb
      · right; left; rw [shipmentPhase_assign_fail hc ha]
      · right; right; exact ⟨sr, awb, by rw [shipmentPhase_ok hc ha]⟩
  · rcases hcc : env.cartClear with e | x
    · left; rw [process_cart_fail hu hcc]
    · rw [process_with_user hu hcc]
      rcases hc : env.createShipment with e | sr
      · right; left; rw [shipmentPhase_create_fail hc]
      · rcases ha : env.assignCourier sr.shipment_id with e | awb
        · right; left; rw [shipmentPhase_assign_fail hc ha]
        · right; right; exact ⟨sr, awb, by rw [shipmentPhase_ok hc ha]⟩

lemma mono_of_single_save {store : List Order} {order : Order} (X : Order)
    (hinv : storeInv store) (hmem : order ∈ store)
    (h8 : order.paymentStatus ≠ PaymentStatus.paid)
    (hXp : X.paymentStatus = PaymentStatus.paid)
    (hXs : X.status = OrderStatus.Placed)
    (store' : List Order)
    (hfindX : findOrder store' order.id = some X)
    (hother : ∀ oid, oid ≠ order.id → findOrder store' oid = findOrder store oid)
    (hfind : findOrder store order.id = some order) :
    ∀ oid o o', findOrder store oid = some o → findOrder store' oid = some o' →
      (o.paymentStatus = PaymentStatus.paid → o'.paymentStatus = PaymentStatus.paid) ∧
      statusRank o.status ≤ statusRank o'.status := by
  intro oid o o' h h'
  by_cases hx : oid = order.id
  · subst hx
    have ho : o = order := Option.some.inj (h.symm.trans hfind)
    have ho' : o' = X := Option.some.inj (h'.symm.trans hfindX)
    rw [ho, ho']
    refine ⟨fun _ => hXp, ?_⟩
    rw [hXs]
    exact hinv order hmem h8
  · rw [hother oid hx] at h'
    have hoo : o = o' := Option.some.inj (h.symm.trans h')
    subst hoo
    exact ⟨fun hp => hp, le_refl _⟩

/-- Claim C3: one webhook-processing step on a store whose unpaid orders
are still at or before the Placed stage (true of all stores reachable from
freshly created orders, and preserved by the step itself) never moves any
order from paid back to pending or failed, and never moves any order
backward in the fulfillment lifecycle; the invariant is preserved, so this
holds along every run of the step relation. -/
theorem webhook_status_monotone (env : Env) (store : List Order)
    (signature : Option String) (body : WebhookBody) (hinv : storeInv store) :
    storeInv (webhookHandler env store signature body).store ∧
    ∀ oid o o', findOrder store oid = some o →
      findOrder (webhookHandler env store signature body).store oid = some o' →
      (o.paymentStatus = PaymentStatus.paid → o'.paymentStatus = PaymentStatus.paid) ∧
      statusRank o.status ≤ statusRank o'.status := by
  rcases webhook_store_cases env store signature body with hsame |
    ⟨order, hfind, h8, hmem, hforms⟩
  · rw [hsame]
    refine ⟨hinv, ?_⟩
    intro oid o o' h h'
    have hoo : o = o' := Option.some.inj (h.symm.trans h')
    rw [hoo]
    exact ⟨fun hp => hp, le_refl _⟩
  · rcases hforms with hA | hB | ⟨sr, awb, hC⟩
    · rw [hA]
      refine ⟨storeInv_saveOrder hinv (paidOrder_paymentStatus order), ?_⟩
      exact mono_of_single_save (paidOrder order) hinv hmem h8
        (paidOrder_paymentStatus order) (paidOrder_status order) _
        (findOrder_saveOrder_of_id (paidOrder_id order) hfind)
        (fun oid hne => findOrder_saveOrder_other (by simpa using hne)) hfind
    · rw [hB]
      refine ⟨storeInv_saveOrder (storeInv_saveOrder hinv (paidOrder_paymentStatus order))
        (by simp), ?_⟩
      refine mono_of_single_save (shippingErrorOrder (paidOrder order)) hinv hmem h8
        (by simp) (by simp) _ ?_ ?_ hfind
      · exact findOrder_saveOrder_of_id (by simp)
          (findOrder_saveOrder_of_id (paidOrder_id order) hfind)
      · intro oid hne
        rw [findOrder_saveOrder_other (by simpa using hne),
          findOrder_saveOrder_other (by simpa using hne)]
    · rw [hC]
      refine ⟨storeInv_saveOrder (storeInv_saveOrder hinv (paidOrder_paymentStatus order))
        (by simp), ?_⟩
      refine mono_of_single_save (shippedOrder (paidOrder order) sr awb) hinv hmem h8
        (by simp) (by simp) _ ?_ ?_ hfind
      · exact findOrder_saveOrder_of_id (by simp)
          (findOrder_saveOrder_of_id (paidOrder_id order) hfind)
      · intro oid hne
        rw [findOrder_saveOrder_other (by simpa using hne),
          findOrder_saveOrder_other (by simpa using hne)]

/-- Witness for C3: the concrete end-to-end run from a store of one fresh
pending order preserves the invariant and is monotone for every order. -/
theorem webhook_status_monotone_witness :
    storeInv (webhookHandler sampleEnv [sampleOrder] (some "sig:RAW") sampleBody).store ∧
    ∀ oid o o', findOrder [sampleOrder] oid = some o →
      findOrder (webhookHandler sampleEnv [sampleOrder]
        (some "sig:RAW") sampleBody).store oid = some o' →
      (o.paymentStatus = PaymentStatus.paid → o'.paymentStatus = PaymentStatus.paid) ∧
      statusRank o.status ≤ statusRank o'.status :=
  webhook_status_monotone sampleEnv [sampleOrder] (some "sig:RAW") sampleBody
    (storeInv_initial (by decide))

/-- A poller state that can never issue a fetch again: the component has
reached the success state (interval cleared, polling over) or has been torn
down. -/
def pollerInactive (s : PollerState) : Prop :=
  s.status = PStatus.success ∨ s.torn = true

lemma fetchIssued_false_of_inactive {s : PollerState} (h : pollerInactive s) :
    fetchIssued s = false := by
  rcases h with h | h <;> simp [fetchIssued, h]

lemma pollerInactive_step {s : PollerState} (e : PollerEvent)
    (h : pollerInactive s) : pollerInactive (pollerStep e s) := by
  rcases e with r | _
  · simpa [pollerStep, fetchIssued_false_of_inactive h] using h
  · exact Or.inr rfl

lemma fetchFreeRun_of_inactive (evs : List PollerEvent) :
    ∀ s, pollerInactive s → fetchFreeRun s evs = true := by
  induction evs with
  | nil => intro s _; rfl
  | cons e evs ih =>
      intro s h
      have h1 : eventIssuesFetch e s = false := by
        rcases e with r | _
        · simpa [eventIssuesFetch] using fetchIssued_false_of_inactive h
        · rfl
      unfold fetchFreeRun
      rw [h1]
      simpa using ih (pollerStep e s) (pollerInactive_step e h)

/-- Claim C9: while the component is mounted, in the polling state with a
known order, every 5-second tick issues exactly one fetch; the tick whose
fetch returns the order with an AWB code moves the poller to success and no
later event issues any fetch; and from the teardown event on, no fetch is
ever issued — whichever of the two comes first stops the polling within
that same tick. -/
theorem tracking_poller_termination (s : PollerState) (r : Except Unit ClientOrder)
    (o : ClientOrder) (evs : List PollerEvent) :
    (s.torn = false → s.status = PStatus.polling → s.order.isSome = true →
      fetchIssued s = true) ∧
    (fetchIssued s = true → r = Except.ok o → o.awbCode.isSome = true →
      (pollerStep (PollerEvent.tick r) s).status = PStatus.success ∧
      fetchFreeRun (pollerStep (PollerEvent.tick r) s) evs = true) ∧
    fetchFreeRun (pollerStep PollerEvent.teardown s) evs = true := by
  refine ⟨?_, ?_, ?_⟩
  · intro h1 h2 h3
    simp [fetchIssued, h1, h2, h3]
  · intro hfi hr hawb
    have hsucc : (pollerStep (PollerEvent.tick r) s).status = PStatus.success := by
      simp [pollerStep, hfi, fetchApply, hr, hawb]
    exact ⟨hsucc, fetchFreeRun_of_inactive evs _ (Or.inl hsucc)⟩
  · exact fetchFreeRun_of_inactive evs _ (Or.inr rfl)

/-- The poller state right after the mount fetch returned an order that has
no AWB code yet: the component is polling. -/
def pollingState : PollerState :=
  mountPoller (Except.ok ⟨"o1", none⟩)

/-- A fetch result where the order has gained an AWB code. -/
def rAwb : Except Unit ClientOrder := Except.ok ⟨"o1", some "AWB123"⟩

/-- A sample continuation of events after the stopping point. -/
def evsSample : List PollerEvent :=
  [PollerEvent.tick rAwb, PollerEvent.teardown, PollerEvent.tick (Except.error ())]

/-- Witness for C9 at concrete states: the polling state fetches on every
tick; the AWB-carrying tick reaches success and the later events issue no
fetch; teardown stops all fetches. -/
theorem tracking_poller_termination_witness :
    fetchIssued pollingState = true ∧
    ((pollerStep (PollerEvent.tick rAwb) pollingState).status = PStatus.success ∧
      fetchFreeRun (pollerStep (PollerEvent.tick rAwb) pollingState) evsSample = true) ∧
    fetchFreeRun (pollerStep PollerEvent.teardown pollingState) evsSample = true :=
  ⟨(tracking_poller_termination pollingState rAwb ⟨"o1", some "AWB123"⟩ evsSample).1
      rfl rfl rfl,
   (tracking_poller_termination pollingState rAwb ⟨"o1", some "AWB123"⟩ evsSample).2.1
      rfl rfl rfl,
   (tracking_poller_termination pollingState rAwb ⟨"o1", some "AWB123"⟩ evsSample).2.2⟩

end Hansitha
